import Mathlib

/-!
Verification of the publication scheduler and idempotency engine of a
Telegram channel bot (`bot.py`, `config.py`).

Modelling conventions:
* Python strings are sequences of Unicode code points, embedded as `List Nat`.
* `str.lower` is modelled on the alphabets the program uses (ASCII and
  Cyrillic); `str.split()` / `str.strip()` whitespace is the common
  whitespace set.
* Naive local timestamps (`datetime.now()`) are integer seconds; the
  MSK-timezone clock used by the price tracks is a separate
  date/hour/minute record.  The float threshold comparisons of the source
  (`time_since_last < min_interval`, with `MIN_HOURS_BETWEEN_POSTS = 0.5`
  hours) are exact on integer-second inputs: `d/3600 < 0.5 ↔ d < 1800`
  and `d/60 < 29.9 ↔ d < 1794`.
* The md5 digest of `_get_post_hash` is modelled by the normalized text
  itself: every use of the digest compares it for equality with stored
  digests, and equal normalized texts give equal digests.
* External collaborators (DeepSeek text generation, NanoBanana image
  generation, Telegram sends, CoinGecko price fetch) are oracles supplied
  as explicit environment values; the events they would cause are recorded
  in an `ExtCall` trace.
-/

namespace NeyroBot

/-- A Python string, as its sequence of Unicode code points. -/
abbrev Text : Type := List Nat

/-- Code points of a Lean string literal. -/
def txt (s : String) : Text := s.data.map Char.toNat

/-- Whitespace recognised by Python's `str.split()` / `str.strip()`
(space, tab, newline, carriage return, vertical tab, form feed). -/
def pyIsWs (c : Nat) : Bool :=
  c == 32 || c == 9 || c == 10 || c == 13 || c == 11 || c == 12

/-- Python `str.lower`, on the alphabets the program's texts use:
ASCII A-Z, Cyrillic А-Я and Ё. -/
def pyToLower (c : Nat) : Nat :=
  if 65 ≤ c ∧ c ≤ 90 then c + 32
  else if 1040 ≤ c ∧ c ≤ 1071 then c + 32
  else if c = 1025 then 1105
  else c

/-- Does `hay` start with `pat`? -/
def startsWithT : Text → Text → Bool
  | _, [] => true
  | [], _ :: _ => false
  | a :: as, b :: bs => a == b && startsWithT as bs

/-- Python's substring test `pat in hay`. -/
def containsSub : Text → Text → Bool
  | [], pat => pat.isEmpty
  | hay@(_ :: rest), pat => startsWithT hay pat || containsSub rest pat

/-- Python `str.strip()`: drop whitespace from both ends. -/
def pyStrip (t : Text) : Text :=
  ((t.dropWhile (fun c => pyIsWs c)).reverse.dropWhile (fun c => pyIsWs c)).reverse

/-- Accumulator worker for `pyWords` (`acc` holds the current word,
reversed). -/
def wordsAux : Text → Text → List Text
  | [], acc =>
    match acc with
    | [] => []
    | _ :: _ => [acc.reverse]
  | c :: cs, acc =>
    if pyIsWs c then
      match acc with
      | [] => wordsAux cs []
      | _ :: _ => acc.reverse :: wordsAux cs []
    else wordsAux cs (c :: acc)

/-- Python `str.split()` with no argument: maximal non-whitespace runs,
empty pieces discarded. -/
def pyWords (t : Text) : List Text := wordsAux t []

/-- Python `' '.join(ws)`. -/
def joinSp : List Text → Text
  | [] => []
  | [w] => w
  | w :: ws => w ++ 32 :: joinSp ws

/-- `TelegramChannelBot._get_post_hash`: the md5 digest of
`' '.join(content.strip().lower().split())`.  The digest is modelled by
the normalized text itself (see module comment). -/
def getPostHash (content : Text) : Text :=
  joinSp (pyWords ((pyStrip content).map pyToLower))

/-- Boolean list membership by decidable equality (models Python `in`
on a set). -/
def memb {α : Type} [DecidableEq α] (x : α) : List α → Bool
  | [] => false
  | y :: ys => if x = y then true else memb x ys

/-! ## Keyword lists of `NewsParser.is_relevant_news` (bot.py:134-321) -/

/-- Hard-exclusion list (`ukraine_keywords`). -/
def ukraineKeywords : List Text :=
  [txt "украин", txt "ukraine", txt "зеленск", txt "zelensky", txt "зеленский"]

/-- `political_markers`. -/
def politicalMarkers : List Text :=
  [txt "геополитика", txt "geopolitics", txt "геополитик",
   txt "россия", txt "russia", txt "россий",
   txt "сша", txt "usa", txt "united states", txt "америк", txt "вашингтон", txt "washington",
   txt "китай", txt "china", txt "китайск",
   txt "тайвань", txt "taiwan", txt "тайвань",
   txt "война", txt "war", txt "военн",
   txt "санкции", txt "sanctions", txt "санкци",
   txt "дипломатия", txt "diplomacy", txt "дипломат",
   txt "президент", txt "president", txt "президент",
   txt "правительство", txt "government", txt "правительств",
   txt "министр", txt "minister", txt "министр",
   txt "премьер", txt "prime minister", txt "премьер",
   txt "парламент", txt "parliament", txt "парламент",
   txt "выборы", txt "elections", txt "выбор",
   txt "референдум", txt "referendum", txt "референдум",
   txt "нато", txt "nato",
   txt "ес", txt "eu", txt "european union", txt "евросоюз",
   txt "венесуэла", txt "venezuela", txt "венесуэл",
   txt "иран", txt "iran", txt "иран",
   txt "израиль", txt "israel", txt "израил",
   txt "палестина", txt "palestine", txt "палестин",
   txt "гренландия", txt "greenland", txt "гренланд",
   txt "ирландия", txt "ireland", txt "ирланд",
   txt "южная корея", txt "south korea", txt "южнокорейск",
   txt "турция", txt "turkey", txt "турецк",
   txt "европа", txt "europe", txt "европейск",
   txt "мадуро", txt "maduro",
   txt "си цзиньпин", txt "xi jinping",
   txt "трамп", txt "trump",
   txt "байден", txt "biden"]

/-- `strict_crypto_keywords`. -/
def strictCryptoKeywords : List Text :=
  [txt "крипт", txt "криптовалют", txt "crypto", txt "cryptocurrency", txt "крипта", txt "крипто",
   txt "блокчейн", txt "blockchain",
   txt "биткоин", txt "bitcoin", txt "btc", txt "биток",
   txt "эфир", txt "ethereum", txt "eth", txt "эфириум",
   txt "тон", txt "ton", txt "toncoin", txt "the open network",
   txt "usdt", txt "tether", txt "тезер",
   txt "usdc", txt "usd coin",
   txt "bnb", txt "binance coin", txt "бинанс",
   txt "sol", txt "solana", txt "солана",
   txt "ada", txt "cardano", txt "кардано",
   txt "xrp", txt "ripple", txt "рипл",
   txt "doge", txt "dogecoin", txt "дож", txt "догикоин",
   txt "shib", txt "shiba inu", txt "шоиб", txt "шиба",
   txt "matic", txt "polygon", txt "полигон",
   txt "avax", txt "avalanche", txt "аваланч",
   txt "dot", txt "polkadot", txt "полкадот",
   txt "link", txt "chainlink", txt "чейнлинк",
   txt "uni", txt "uniswap", txt "юнисвап",
   txt "ltc", txt "litecoin", txt "лайткоин",
   txt "bch", txt "bitcoin cash", txt "биткоин кэш",
   txt "xlm", txt "stellar", txt "стеллар",
   txt "atom", txt "cosmos", txt "космос",
   txt "near", txt "near protocol",
   txt "ftm", txt "fantom", txt "фантом",
   txt "algo", txt "algorand", txt "алгоранд",
   txt "vet", txt "vechain", txt "вечейн",
   txt "icp", txt "internet computer",
   txt "apt", txt "aptos", txt "аптос",
   txt "arb", txt "arbitrum", txt "арбитрум",
   txt "op", txt "optimism", txt "оптимизм",
   txt "sui", txt "суи",
   txt "sei", txt "сей",
   txt "tia", txt "celestia", txt "целестия",
   txt "inj", txt "injective", txt "инжектив",
   txt "rndr", txt "render", txt "рендер",
   txt "imx", txt "immutable x",
   txt "grt", txt "the graph",
   txt "aave", txt "ааве",
   txt "comp", txt "compound", txt "компаунд",
   txt "mkr", txt "maker", txt "мейкер",
   txt "snx", txt "synthetix", txt "синтетикс",
   txt "crv", txt "curve", txt "кривая",
   txt "1inch", txt "1инч",
   txt "sushi", txt "sushiswap", txt "суши",
   txt "pancake", txt "pancakeswap", txt "панкейк",
   txt "дефай", txt "defi", txt "decentralized finance",
   txt "нфт", txt "nft", txt "non-fungible token",
   txt "стейкинг", txt "staking", txt "стейк",
   txt "майнинг", txt "mining", txt "майнинг",
   txt "сатоши", txt "satoshi", txt "сат",
   txt "wei", txt "вей",
   txt "газ", txt "gas", txt "gas fee",
   txt "смарт контракт", txt "smart contract",
   txt "dapp", txt "децентрализованное приложение",
   txt "dao", txt "децентрализованная автономная организация",
   txt "web3", txt "веб3",
   txt "метавселенная", txt "metaverse", txt "метавселенная",
   txt "p2e", txt "play to earn", txt "играй и зарабатывай",
   txt "gamefi", txt "геймфи",
   txt "yield farming", txt "фарминг",
   txt "dex", txt "децентрализованная биржа",
   txt "cex", txt "централизованная биржа",
   txt "wallet", txt "кошелек", txt "валлет",
   txt "exchange", txt "биржа",
   txt "trading", txt "трейдинг", txt "торговля",
   txt "bull", txt "бык", txt "бычий",
   txt "bear", txt "медведь", txt "медвежий",
   txt "whale", txt "кит",
   txt "fomo", txt "фомо",
   txt "fud", txt "фуд",
   txt "hype", txt "хайп",
   txt "pump", txt "памп", txt "накачка",
   txt "dump", txt "дамп", txt "сброс",
   txt "hold", txt "холд", txt "держать",
   txt "hodl", txt "хадл",
   txt "moon", txt "луна", txt "к луне",
   txt "lambo", txt "ламбо",
   txt "rekt", txt "рект",
   txt "diamond hands", txt "алмазные руки",
   txt "paper hands", txt "бумажные руки"]

/-- `general_keywords`. -/
def generalKeywords : List Text :=
  [txt "токен", txt "token", txt "коин", txt "coin", txt "альткоин", txt "altcoin",
   txt "liquidity", txt "ликвидность"]

/-- `financial_context`. -/
def financialContext : List Text :=
  [txt "цена", txt "price", txt "курс", txt "rate", txt "рост", txt "рост",
   txt "падение", txt "fall", txt "инвестиц", txt "invest", txt "бирж",
   txt "exchange", txt "торговл", txt "trading"]

/-- `tech_context`. -/
def techContext : List Text :=
  [txt "блокчейн", txt "blockchain", txt "технологи", txt "technology",
   txt "протокол", txt "protocol", txt "сеть", txt "network"]

/-- The per-keyword guard used in the strict and general loops:
`keyword.lower().strip()` must be non-empty and a substring of the
lowered text. -/
def kwMatch (tl k : Text) : Bool :=
  let kl := pyStrip (k.map pyToLower)
  !kl.isEmpty && containsSub tl kl

/-- `NewsParser.is_relevant_news` (bot.py:134-321). -/
def isRelevantNews (t : Text) : Bool :=
  if t.isEmpty then false
  else
    let tl := t.map pyToLower
    if ukraineKeywords.any (fun k => containsSub tl k) then false
    else
      let hasPolitical := politicalMarkers.any (fun k => containsSub tl k)
      if strictCryptoKeywords.any (fun k => kwMatch tl k) then true
      else if hasPolitical then false
      else
        let foundGeneral := generalKeywords.filter (fun k => kwMatch tl k)
        if 2 ≤ foundGeneral.length then
          if hasPolitical then false else true
        else
          let hasGeneral := generalKeywords.any (fun k => containsSub tl k)
          let hasFinancial := financialContext.any (fun k => containsSub tl k)
          let hasTech := techContext.any (fun k => containsSub tl k)
          if hasGeneral && (hasFinancial || hasTech) then
            if hasPolitical then false else true
          else false

/-! ## Scheduler state (`TelegramChannelBot`) -/

/-- `config.POSTS_PER_DAY` (999 = effectively unlimited). -/
def POSTS_PER_DAY : Nat := 999

/-- `config.MIN_HOURS_BETWEEN_POSTS = 0.5` hours, in seconds. -/
def MIN_SECONDS_BETWEEN_POSTS : Nat := 1800

/-- The gate of `check_and_publish_new_news`: `min_interval_minutes - 0.1`
minutes, in seconds.  For integer-second elapsed time `d`,
`d/60 < 29.9 ↔ d < 1794`. -/
def NEWS_GATE_SECONDS : Nat := 1794

/-- `config.PRICE_POST_MORNING_HOUR`. -/
def PRICE_POST_MORNING_HOUR : Nat := 11

/-- `config.PRICE_POST_EVENING_HOUR`. -/
def PRICE_POST_EVENING_HOUR : Nat := 22

/-- The in-memory scheduler/idempotency state of `TelegramChannelBot`.
Timestamps are integer seconds of the naive local clock; the price-post
dates are opaque calendar-day values.  The Python `set`s are modelled as
lists queried through `memb`. -/
structure BotState where
  lastPostTime : Option Nat
  postsToday : Nat
  postsTarget : Nat
  resetTime : Nat
  lastPriceMorning : Option Nat
  lastPriceEvening : Option Nat
  publishedHashes : List Text
  publishedNewsIds : List Nat
deriving DecidableEq

/-- `TelegramChannelBot._is_duplicate`. -/
def isDuplicate (s : BotState) (content : Text) : Bool :=
  memb (getPostHash content) s.publishedHashes

/-- `TelegramChannelBot._mark_as_published` (the `_save_state` write is
modelled separately by `saveState`).  `if news_id:` makes `None` and `0`
both skip the source-id record. -/
def markAsPublished (s : BotState) (content : Text) (newsId : Option Nat) : BotState :=
  let s1 := { s with publishedHashes := getPostHash content :: s.publishedHashes }
  match newsId with
  | some i => if i = 0 then s1 else { s1 with publishedNewsIds := i :: s1.publishedNewsIds }
  | none => s1

/-- The guard `if news_id and news_id in self.published_news_ids` of
`publish_post`. -/
def newsIdConsumed (newsId : Option Nat) (ids : List Nat) : Bool :=
  match newsId with
  | some i => if i = 0 then false else memb i ids
  | none => false

/-- External calls to the content generator, image generator and channel
publisher (the collaborators of the spec). -/
inductive ExtCall where
  | generateText
  | generateImage
  | sendPhoto
  | sendMessage
deriving DecidableEq

/-- How the try-block of `publish_post` plays out: everything succeeds,
a `TelegramError` is raised but the text-only fallback send succeeds or
fails, or some other exception is raised and the text-only fallback
succeeds or fails. -/
inductive SendOutcome where
  | ok
  | telegramErrThenOk
  | telegramErrThenFail
  | otherErrThenOk
  | otherErrThenFail
deriving DecidableEq

/-- Oracle for one `publish_post` attempt: whether image generation
returns a URL, and how the send plays out. -/
structure PublishEnv where
  imageOk : Bool
  outcome : SendOutcome
deriving DecidableEq

/-- `TelegramChannelBot.publish_post` (bot.py:1374-1468).  Returns the
success flag, the next state and the trace of external calls.  In the
generic-exception fallback (`.otherErrThenOk`) the source calls
`_mark_as_published(content)` without `news_id`. -/
def publishPost (env : PublishEnv) (now : Nat) (content : Text)
    (isPricePost : Bool) (newsId : Option Nat) (s : BotState) :
    Bool × BotState × List ExtCall :=
  if isDuplicate s content then (false, s, [])
  else if newsIdConsumed newsId s.publishedNewsIds then (false, s, [])
  else
    let primary := if env.imageOk then ExtCall.sendPhoto else ExtCall.sendMessage
    let succStateWith : Option Nat → BotState := fun recId =>
      markAsPublished
        { s with
          lastPostTime := if isPricePost then s.lastPostTime else some now
          postsToday := s.postsToday + 1 }
        content recId
    match env.outcome with
    | .ok => (true, succStateWith newsId, [ExtCall.generateImage, primary])
    | .telegramErrThenOk =>
        (true, succStateWith newsId, [ExtCall.generateImage, primary, ExtCall.sendMessage])
    | .telegramErrThenFail =>
        (false, s, [ExtCall.generateImage, primary, ExtCall.sendMessage])
    | .otherErrThenOk =>
        (true, succStateWith none, [ExtCall.generateImage, primary, ExtCall.sendMessage])
    | .otherErrThenFail =>
        (false, s, [ExtCall.generateImage, primary, ExtCall.sendMessage])

/-- How the single send of `publish_post_manual` plays out. -/
inductive ManualOutcome where
  | ok
  | sendFail
deriving DecidableEq

/-- `TelegramChannelBot.publish_post_manual` (bot.py:1470-1516): only the
content-hash duplicate guard, then the send; on success sets
`last_post_time = now`, increments `posts_today` and records the hash
(`_mark_as_published(content)` without a news id). -/
def publishPostManual (outcome : ManualOutcome) (now : Nat) (content : Text)
    (s : BotState) : Bool × BotState :=
  if isDuplicate s content then (false, s)
  else
    match outcome with
    | .ok =>
        (true, markAsPublished
          { s with lastPostTime := some now, postsToday := s.postsToday + 1 }
          content none)
    | .sendFail => (false, s)

/-- `datetime.now().replace(hour=0, minute=0, second=0, microsecond=0)`. -/
def startOfDay (now : Nat) : Nat := now - now % 86400

/-- The lazy daily reset at the top of `should_publish_now`
(bot.py:1522-1527). -/
def dailyReset (now : Nat) (s : BotState) : BotState :=
  if s.resetTime + 86400 ≤ now then
    { s with postsToday := 0, postsTarget := POSTS_PER_DAY, resetTime := startOfDay now }
  else s

/-- `TelegramChannelBot.should_publish_now` (bot.py:1518-1542), including
its lazy daily reset.  Returns the decision and the (possibly reset)
state. -/
def shouldPublishNow (now : Nat) (s : BotState) : Bool × BotState :=
  let s2 := dailyReset now s
  if s2.postsTarget ≤ s2.postsToday then (false, s2)
  else
    match s2.lastPostTime with
    | some t => if now - t < MIN_SECONDS_BETWEEN_POSTS then (false, s2) else (true, s2)
    | none => (true, s2)

/-- A news item as returned by `get_new_relevant_news_items`. -/
structure NewsItem where
  id : Nat
  text : Text
deriving DecidableEq

/-- Oracle for one `check_and_publish_new_news` tick: the (already
classifier-filtered) news items the parser returns, the DeepSeek
generation result (`none` = exception or empty), and the publish
oracle. -/
structure NewsEnv where
  newsItems : List NewsItem
  genContent : Option Text
  publishEnv : PublishEnv
deriving DecidableEq

/-- Body of `TelegramChannelBot.check_and_publish_new_news` after its
interval gate (bot.py:1581-1628): consumed-id filter, DeepSeek
generation, relevance re-check of the generated post, then
`publish_post`. -/
def checkAndPublishCore (env : NewsEnv) (now : Nat) (s : BotState) :
    Bool × BotState × List ExtCall :=
  if env.newsItems.isEmpty then (false, s, [])
  else
    match env.newsItems.filter (fun it => !memb it.id s.publishedNewsIds) with
    | [] => (false, s, [])
    | latest :: _ =>
      match env.genContent with
      | none => (false, s, [ExtCall.generateText])
      | some c =>
        if isRelevantNews c then
          let r := publishPost env.publishEnv now c false (some latest.id) s
          (r.1, r.2.1, ExtCall.generateText :: r.2.2)
        else (false, s, [ExtCall.generateText])

/-- The leading interval gate of `check_and_publish_new_news`
(bot.py:1568-1579), then `checkAndPublishCore`. -/
def checkAndPublishNewNews (env : NewsEnv) (now : Nat) (s : BotState) :
    Bool × BotState × List ExtCall :=
  match s.lastPostTime with
  | some t =>
    if now - t < NEWS_GATE_SECONDS then (false, s, [])
    else checkAndPublishCore env now s
  | none => checkAndPublishCore env now s

/-! ## Price tracks (MSK clock) -/

/-- A reading of the MSK clock (`get_msk_time`): calendar day plus
hour/minute of day. -/
structure MskTime where
  date : Nat
  hour : Nat
  minute : Nat
deriving DecidableEq

/-- `TelegramChannelBot.should_post_price_morning` (bot.py:1634-1648). -/
def shouldPostPriceMorning (msk : MskTime) (s : BotState) : Bool :=
  if msk.hour = PRICE_POST_MORNING_HOUR ∧ msk.minute ≤ 15 then
    if s.lastPriceMorning ≠ some msk.date then true else false
  else false

/-- `TelegramChannelBot.should_post_price_evening` (bot.py:1650-1664). -/
def shouldPostPriceEvening (msk : MskTime) (s : BotState) : Bool :=
  if msk.hour = PRICE_POST_EVENING_HOUR ∧ msk.minute ≤ 15 then
    if s.lastPriceEvening ≠ some msk.date then true else false
  else false

/-- Oracle for one `generate_and_publish_price` attempt: whether the
CoinGecko price fetch succeeds, the DeepSeek generation result, and the
publish oracle. -/
structure PriceEnv where
  priceOk : Bool
  genContent : Option Text
  publishEnv : PublishEnv
deriving DecidableEq

/-- `TelegramChannelBot.generate_and_publish_price` (bot.py:1666-1696):
on publish success records today's MSK date in the track's
last-posted-date field. -/
def generateAndPublishPrice (env : PriceEnv) (now : Nat) (msk : MskTime)
    (isMorning : Bool) (s : BotState) : Bool × BotState :=
  if !env.priceOk then (false, s)
  else
    match env.genContent with
    | none => (false, s)
    | some c =>
      let r := publishPost env.publishEnv now c true none s
      if r.1 then
        if isMorning then (true, { r.2.1 with lastPriceMorning := some msk.date })
        else (true, { r.2.1 with lastPriceEvening := some msk.date })
      else (false, r.2.1)

/-- Oracle and clocks for one iteration of `run_loop`. -/
structure TickEnv where
  now : Nat
  msk : MskTime
  newsEnv : NewsEnv
  morningEnv : PriceEnv
  eveningEnv : PriceEnv
deriving DecidableEq

/-- One iteration of the `while True:` body of `run_loop`
(bot.py:1747-1789): news check first, then the morning and evening
price-track checks.  Returns which price tracks published. -/
def runLoopTick (tick : TickEnv) (s : BotState) : (Bool × Bool) × BotState :=
  let r := checkAndPublishNewNews tick.newsEnv tick.now s
  let s1 := r.2.1
  let m :=
    if shouldPostPriceMorning tick.msk s1 then
      generateAndPublishPrice tick.morningEnv tick.now tick.msk true s1
    else (false, s1)
  let e :=
    if shouldPostPriceEvening tick.msk m.2 then
      generateAndPublishPrice tick.eveningEnv tick.now tick.msk false m.2
    else (false, m.2)
  ((m.1, e.1), e.2)

/-- Iterated `run_loop` body over a list of ticks, counting successful
morning and evening price publishes. -/
def runLoop : List TickEnv → BotState → (Nat × Nat) × BotState
  | [], s => ((0, 0), s)
  | t :: ts, s =>
    let r := runLoopTick t s
    let rest := runLoop ts r.2
    ((rest.1.1 + (if r.1.1 then 1 else 0), rest.1.2 + (if r.1.2 then 1 else 0)), rest.2)

/-! ## Durable state (`_save_state` / `_load_state` / `__init__`) -/

/-- The snapshot `_save_state` writes to `bot_state.json`
(bot.py:1359-1372): exactly `last_post_time`, `published_posts_hashes`
and `published_news_ids`. -/
structure SavedState where
  lastPostTime : Option Nat
  publishedHashes : List Text
  publishedNewsIds : List Nat
deriving DecidableEq

/-- `TelegramChannelBot._save_state`. -/
def saveState (s : BotState) : SavedState :=
  { lastPostTime := s.lastPostTime
    publishedHashes := s.publishedHashes
    publishedNewsIds := s.publishedNewsIds }

/-- `_load_state` followed by the rest of `__init__`
(bot.py:1024-1068, 1316-1357): a missing or unreadable file (`none`)
gives empty defaults; either way `posts_today`, `reset_time` and the two
price-post dates are freshly initialised, not read from the snapshot. -/
def initFromState (startupNow : Nat) (snap : Option SavedState) : BotState :=
  { lastPostTime := match snap with | some sn => sn.lastPostTime | none => none
    postsToday := 0
    postsTarget := POSTS_PER_DAY
    resetTime := startOfDay startupNow
    lastPriceMorning := none
    lastPriceEvening := none
    publishedHashes := match snap with | some sn => sn.publishedHashes | none => []
    publishedNewsIds := match snap with | some sn => sn.publishedNewsIds | none => [] }

/-! ## Spec-side relation for C5 -/

/-- Modelled from the spec wording of C5: `t2` differs from `t` only by
letter case and/or leading/trailing/internal whitespace exactly when the
two whitespace-delimited word sequences agree up to letter case. -/
def caseWsEquiv (t t2 : Text) : Prop :=
  (pyWords t).map (List.map pyToLower) = (pyWords t2).map (List.map pyToLower)

/-- The relation is decidable, so concrete instances can be checked by
evaluation. -/
instance caseWsEquivDecidable (t t2 : Text) : Decidable (caseWsEquiv t t2) := by
  unfold caseWsEquiv
  infer_instance

/-! ## Concrete states and environments used by the closed checks -/

/-- A cold start with no state file. -/
def emptyState : BotState := initFromState 0 none

/-- Publish oracle where every external call succeeds. -/
def okPublishEnv : PublishEnv := { imageOk := true, outcome := SendOutcome.ok }

/-- One fresh relevant news item; DeepSeek returns a crypto-relevant
post. -/
def newsEnvBtc : NewsEnv :=
  { newsItems := [{ id := 1, text := txt "btc" }]
    genContent := some (txt "btc растет")
    publishEnv := okPublishEnv }

/-- Cold-start state whose last cycle post happened at time 0. -/
def stateLastZero : BotState := { emptyState with lastPostTime := some 0 }

/-- Cold-start state with the daily quota already exhausted. -/
def stateQuotaFull : BotState := { emptyState with postsToday := POSTS_PER_DAY }

/-- Cold-start state that has already published the exact content
`newsEnvBtc` will generate. -/
def stateHashPrimed : BotState :=
  { emptyState with publishedHashes := [getPostHash (txt "btc растет")] }

/-- State whose only news item id 5 is already consumed. -/
def stateConsumed5 : BotState := { emptyState with publishedNewsIds := [5] }

/-- News environment whose single item id 5 matches `stateConsumed5`. -/
def newsEnvConsumed : NewsEnv :=
  { newsItems := [{ id := 5, text := txt "btc" }]
    genContent := some (txt "btc растет")
    publishEnv := okPublishEnv }

/-- Mid-day state right before a successful cycle publish: four posts so
far today, both price tracks already fired on day 20000. -/
def statePrePublish : BotState :=
  { lastPostTime := some 0
    postsToday := 4
    postsTarget := POSTS_PER_DAY
    resetTime := 0
    lastPriceMorning := some 20000
    lastPriceEvening := some 20000
    publishedHashes := []
    publishedNewsIds := [] }

/-- The state right after `publish_post` succeeds on `statePrePublish`
(the moment `_save_state` runs). -/
def stateAfterPublish : BotState :=
  (publishPost okPublishEnv 5000 (txt "btc пост") false (some 3) statePrePublish).2.1

/-- Price-track oracle where fetch, generation and publish succeed. -/
def priceEnvOk : PriceEnv :=
  { priceOk := true, genContent := some (txt "тон по 2 бакса"), publishEnv := okPublishEnv }

/-- Same, with different generated content (so the duplicate guard does
not interfere on a second tick). -/
def priceEnvOk2 : PriceEnv :=
  { priceOk := true, genContent := some (txt "тон по 3 бакса"), publishEnv := okPublishEnv }

/-- A tick where the news parser finds nothing. -/
def emptyNewsEnv : NewsEnv :=
  { newsItems := [], genContent := none, publishEnv := okPublishEnv }

/-- Two ticks inside the same 11:00-11:15 MSK morning window of day 0. -/
def tick1 : TickEnv :=
  { now := 100, msk := { date := 0, hour := 11, minute := 2 }
    newsEnv := emptyNewsEnv, morningEnv := priceEnvOk, eveningEnv := priceEnvOk }

/-- Second tick of the same morning window. -/
def tick2 : TickEnv :=
  { now := 200, msk := { date := 0, hour := 11, minute := 4 }
    newsEnv := emptyNewsEnv, morningEnv := priceEnvOk2, eveningEnv := priceEnvOk2 }

/-! # Lemmas -/

theorem pyIsWs_pyToLower (c : Nat) : pyIsWs (pyToLower c) = pyIsWs c := by
  unfold pyToLower
  split
  · next h =>
    have h1 : pyIsWs (c + 32) = false := by
      simp only [pyIsWs, Bool.or_eq_false_iff, beq_eq_false_iff_ne, ne_eq]
      omega
    have h2 : pyIsWs c = false := by
      simp only [pyIsWs, Bool.or_eq_false_iff, beq_eq_false_iff_ne, ne_eq]
      omega
    rw [h1, h2]
  · split
    · next h h2 =>
      have h1 : pyIsWs (c + 32) = false := by
        simp only [pyIsWs, Bool.or_eq_false_iff, beq_eq_false_iff_ne, ne_eq]
        omega
      have h3 : pyIsWs c = false := by
        simp only [pyIsWs, Bool.or_eq_false_iff, beq_eq_false_iff_ne, ne_eq]
        omega
      rw [h1, h3]
    · split
      · next h h2 h3 => subst h3; decide
      · rfl

theorem pyStrip_map_toLower (l : Text) :
    pyStrip (l.map pyToLower) = (pyStrip l).map pyToLower := by
  have hcomp : ((fun c => pyIsWs c) ∘ pyToLower) = (fun c => pyIsWs c) := by
    funext c
    exact pyIsWs_pyToLower c
  unfold pyStrip
  rw [List.dropWhile_map, hcomp, ← List.map_reverse, List.dropWhile_map, hcomp,
    ← List.map_reverse]


theorem wordsAux_ws_nil (w : Text) (hw : ∀ c ∈ w, pyIsWs c = true) :
    wordsAux w [] = [] := by
  induction w with
  | nil => rfl
  | cons c cs ih =>
    have hc : pyIsWs c = true := hw c (List.mem_cons_self c cs)
    simp only [wordsAux, hc, if_true]
    exact ih (fun x hx => hw x (List.mem_cons_of_mem c hx))

theorem wordsAux_ws_cons (w : Text) (hw : ∀ c ∈ w, pyIsWs c = true)
    (a : Nat) (acc : Text) :
    wordsAux w (a :: acc) = [(a :: acc).reverse] := by
  induction w with
  | nil => rfl
  | cons c cs ih =>
    have hc : pyIsWs c = true := hw c (List.mem_cons_self c cs)
    simp only [wordsAux, hc, if_true]
    rw [wordsAux_ws_nil cs (fun x hx => hw x (List.mem_cons_of_mem c hx))]

theorem wordsAux_append_ws (w : Text) (hw : ∀ c ∈ w, pyIsWs c = true) :
    ∀ (l acc : Text), wordsAux (l ++ w) acc = wordsAux l acc := by
  intro l
  induction l with
  | nil =>
    intro acc
    cases acc with
    | nil => simp only [List.nil_append, wordsAux]; exact wordsAux_ws_nil w hw
    | cons a as => simp only [List.nil_append, wordsAux]; exact wordsAux_ws_cons w hw a as
  | cons c cs ih =>
    intro acc
    by_cases hc : pyIsWs c = true
    · cases acc with
      | nil => simp only [List.cons_append, wordsAux, hc, if_true]; exact ih []
      | cons a as =>
        simp only [List.cons_append, wordsAux, hc, if_true, List.append_eq]
        rw [ih []]
    · rw [Bool.not_eq_true] at hc
      cases acc with
      | nil =>
        simp only [List.cons_append, wordsAux, hc, Bool.false_eq_true, if_false, List.append_eq]
        exact ih [c]
      | cons a as =>
        simp only [List.cons_append, wordsAux, hc, Bool.false_eq_true, if_false, List.append_eq]
        exact ih (c :: (a :: as))


theorem pyWords_dropWhile_ws (l : Text) :
    pyWords (l.dropWhile (fun c => pyIsWs c)) = pyWords l := by
  induction l with
  | nil => rfl
  | cons c cs ih =>
    by_cases hc : pyIsWs c = true
    · simp only [pyWords, List.dropWhile_cons, hc, eq_self_iff_true, if_true]
      simp only [pyWords] at ih
      rw [ih]
      simp only [wordsAux, hc, if_true]
    · rw [Bool.not_eq_true] at hc
      simp only [pyWords, List.dropWhile_cons, hc, Bool.false_eq_true, if_false]

theorem pyWords_backstrip (v : Text) :
    pyWords ((v.reverse.dropWhile (fun c => pyIsWs c)).reverse) = pyWords v := by
  have h1 : v.reverse.takeWhile (fun c => pyIsWs c) ++
      v.reverse.dropWhile (fun c => pyIsWs c) = v.reverse :=
    List.takeWhile_append_dropWhile _ _
  have hsplit := congrArg List.reverse h1
  rw [List.reverse_append, List.reverse_reverse] at hsplit
  have hws : ∀ c ∈ (v.reverse.takeWhile (fun c => pyIsWs c)).reverse, pyIsWs c = true := by
    intro c hc
    rw [List.mem_reverse] at hc
    exact List.mem_takeWhile_imp hc
  conv_rhs => rw [← hsplit]
  rw [pyWords, pyWords, wordsAux_append_ws _ hws]

theorem pyWords_pyStrip (l : Text) : pyWords (pyStrip l) = pyWords l := by
  unfold pyStrip
  rw [pyWords_backstrip, pyWords_dropWhile_ws]


theorem wordsAux_map_toLower (l : Text) :
    ∀ acc : Text, wordsAux (l.map pyToLower) (acc.map pyToLower) =
      (wordsAux l acc).map (List.map pyToLower) := by
  induction l with
  | nil =>
    intro acc
    cases acc with
    | nil => rfl
    | cons a as =>
      simp only [List.map_nil, List.map_cons, wordsAux, List.map_reverse]
  | cons c cs ih =>
    intro acc
    by_cases hc : pyIsWs c = true
    · have hfc : pyIsWs (pyToLower c) = true := by rw [pyIsWs_pyToLower]; exact hc
      cases acc with
      | nil =>
        simp only [List.map_cons, List.map_nil, wordsAux, hfc, hc, if_true]
        exact ih []
      | cons a as =>
        simp only [List.map_cons, wordsAux, hfc, hc, if_true]
        have hnil := ih []
        simp only [List.map_nil] at hnil
        rw [hnil, ← List.map_cons pyToLower a as, List.map_reverse]
    · rw [Bool.not_eq_true] at hc
      have hfc : pyIsWs (pyToLower c) = false := by rw [pyIsWs_pyToLower]; exact hc
      simp only [List.map_cons, wordsAux, hfc, hc, Bool.false_eq_true, if_false]
      rw [← List.map_cons pyToLower c acc]
      exact ih (c :: acc)

theorem pyWords_map_toLower (l : Text) :
    pyWords (l.map pyToLower) = (pyWords l).map (List.map pyToLower) := by
  have := wordsAux_map_toLower l []
  simpa [pyWords] using this

theorem getPostHash_eq_words (t : Text) :
    getPostHash t = joinSp ((pyWords t).map (List.map pyToLower)) := by
  unfold getPostHash
  rw [← pyStrip_map_toLower, pyWords_pyStrip, pyWords_map_toLower]


theorem getPostHash_congr (t t2 : Text) (h : caseWsEquiv t t2) :
    getPostHash t = getPostHash t2 := by
  rw [getPostHash_eq_words, getPostHash_eq_words, h]

theorem markAsPublished_postsToday (s : BotState) (c : Text) (nid : Option Nat) :
    (markAsPublished s c nid).postsToday = s.postsToday := by
  unfold markAsPublished
  cases nid with
  | none => rfl
  | some i => by_cases h : i = 0 <;> simp [h]

theorem markAsPublished_lastPostTime (s : BotState) (c : Text) (nid : Option Nat) :
    (markAsPublished s c nid).lastPostTime = s.lastPostTime := by
  unfold markAsPublished
  cases nid with
  | none => rfl
  | some i => by_cases h : i = 0 <;> simp [h]

theorem markAsPublished_lastPriceMorning (s : BotState) (c : Text) (nid : Option Nat) :
    (markAsPublished s c nid).lastPriceMorning = s.lastPriceMorning := by
  unfold markAsPublished
  cases nid with
  | none => rfl
  | some i => by_cases h : i = 0 <;> simp [h]

theorem markAsPublished_lastPriceEvening (s : BotState) (c : Text) (nid : Option Nat) :
    (markAsPublished s c nid).lastPriceEvening = s.lastPriceEvening := by
  unfold markAsPublished
  cases nid with
  | none => rfl
  | some i => by_cases h : i = 0 <;> simp [h]

theorem publishPost_success_postsToday (env : PublishEnv) (now : Nat) (c : Text)
    (p : Bool) (nid : Option Nat) (s : BotState)
    (h : (publishPost env now c p nid s).1 = true) :
    (publishPost env now c p nid s).2.1.postsToday = s.postsToday + 1 := by
  obtain ⟨iok, outc⟩ := env
  unfold publishPost at *
  split at h
  · exact absurd h (by simp)
  · split at h
    · exact absurd h (by simp)
    · cases outc <;> simp_all [markAsPublished_postsToday]

theorem publishPost_success_lastPostTime (env : PublishEnv) (now : Nat) (c : Text)
    (p : Bool) (nid : Option Nat) (s : BotState)
    (h : (publishPost env now c p nid s).1 = true) :
    (publishPost env now c p nid s).2.1.lastPostTime =
      (if p then s.lastPostTime else some now) := by
  obtain ⟨iok, outc⟩ := env
  unfold publishPost at *
  split at h
  · exact absurd h (by simp)
  · split at h
    · exact absurd h (by simp)
    · cases outc <;> simp_all [markAsPublished_lastPostTime]

theorem publishPost_lastPriceMorning (env : PublishEnv) (now : Nat) (c : Text)
    (p : Bool) (nid : Option Nat) (s : BotState) :
    (publishPost env now c p nid s).2.1.lastPriceMorning = s.lastPriceMorning := by
  obtain ⟨iok, outc⟩ := env
  unfold publishPost
  split
  · rfl
  · split
    · rfl
    · cases outc <;> simp [markAsPublished_lastPriceMorning]

theorem publishPost_lastPriceEvening (env : PublishEnv) (now : Nat) (c : Text)
    (p : Bool) (nid : Option Nat) (s : BotState) :
    (publishPost env now c p nid s).2.1.lastPriceEvening = s.lastPriceEvening := by
  obtain ⟨iok, outc⟩ := env
  unfold publishPost
  split
  · rfl
  · split
    · rfl
    · cases outc <;> simp [markAsPublished_lastPriceEvening]


theorem publishPost_duplicate (env : PublishEnv) (now : Nat) (c : Text)
    (p : Bool) (nid : Option Nat) (s : BotState)
    (h : isDuplicate s c = true) :
    publishPost env now c p nid s = (false, s, []) := by
  unfold publishPost
  simp [h]


theorem publishPost_fail_state (env : PublishEnv) (now : Nat) (c : Text)
    (p : Bool) (nid : Option Nat) (s : BotState)
    (h : (publishPost env now c p nid s).1 = false) :
    (publishPost env now c p nid s).2.1 = s := by
  obtain ⟨iok, outc⟩ := env
  unfold publishPost at *
  split
  · rfl
  · split
    · rfl
    · cases outc <;> simp_all

theorem core_spec (env : NewsEnv) (now : Nat) (s : BotState) :
    (∃ nid c, env.genContent = some c ∧ isRelevantNews c = true ∧
      checkAndPublishCore env now s =
        ((publishPost env.publishEnv now c false (some nid) s).1,
         (publishPost env.publishEnv now c false (some nid) s).2.1,
         ExtCall.generateText :: (publishPost env.publishEnv now c false (some nid) s).2.2)) ∨
    ((checkAndPublishCore env now s).1 = false ∧
     (checkAndPublishCore env now s).2.1 = s ∧
     ∀ e ∈ (checkAndPublishCore env now s).2.2, e = ExtCall.generateText) := by
  unfold checkAndPublishCore
  split
  · right
    exact ⟨rfl, rfl, by intro e he; simp at he⟩
  · split
    · right
      exact ⟨rfl, rfl, by intro e he; simp at he⟩
    · split
      · right
        refine ⟨rfl, rfl, ?_⟩
        intro e he
        simp at he
        exact he
      · split
        · left
          refine ⟨_, _, ?_, ?_, rfl⟩ <;> assumption
        · right
          refine ⟨rfl, rfl, ?_⟩
          intro e he
          simp at he
          exact he


theorem core_success_lastPostTime (env : NewsEnv) (now : Nat) (s : BotState)
    (h : (checkAndPublishCore env now s).1 = true) :
    (checkAndPublishCore env now s).2.1.lastPostTime = some now := by
  rcases core_spec env now s with ⟨nid, c, hgen, hrel, heq⟩ | ⟨hf, _, _⟩
  · rw [heq] at h ⊢
    simp only at h ⊢
    have := publishPost_success_lastPostTime env.publishEnv now c false (some nid) s h
    simpa using this
  · rw [hf] at h
    exact absurd h (by simp)

theorem core_lastPriceMorning (env : NewsEnv) (now : Nat) (s : BotState) :
    (checkAndPublishCore env now s).2.1.lastPriceMorning = s.lastPriceMorning := by
  rcases core_spec env now s with ⟨nid, c, hgen, hrel, heq⟩ | ⟨_, hs, _⟩
  · rw [heq]
    exact publishPost_lastPriceMorning _ _ _ _ _ _
  · rw [hs]

theorem core_lastPriceEvening (env : NewsEnv) (now : Nat) (s : BotState) :
    (checkAndPublishCore env now s).2.1.lastPriceEvening = s.lastPriceEvening := by
  rcases core_spec env now s with ⟨nid, c, hgen, hrel, heq⟩ | ⟨_, hs, _⟩
  · rw [heq]
    exact publishPost_lastPriceEvening _ _ _ _ _ _
  · rw [hs]

theorem checkAndPublish_lastPriceMorning (env : NewsEnv) (now : Nat) (s : BotState) :
    (checkAndPublishNewNews env now s).2.1.lastPriceMorning = s.lastPriceMorning := by
  unfold checkAndPublishNewNews
  cases s.lastPostTime with
  | none => exact core_lastPriceMorning env now s
  | some t =>
    show (if now - t < NEWS_GATE_SECONDS then (false, s, [])
      else checkAndPublishCore env now s).2.1.lastPriceMorning = s.lastPriceMorning
    split
    · rfl
    · exact core_lastPriceMorning env now s

theorem checkAndPublish_lastPriceEvening (env : NewsEnv) (now : Nat) (s : BotState) :
    (checkAndPublishNewNews env now s).2.1.lastPriceEvening = s.lastPriceEvening := by
  unfold checkAndPublishNewNews
  cases s.lastPostTime with
  | none => exact core_lastPriceEvening env now s
  | some t =>
    show (if now - t < NEWS_GATE_SECONDS then (false, s, [])
      else checkAndPublishCore env now s).2.1.lastPriceEvening = s.lastPriceEvening
    split
    · rfl
    · exact core_lastPriceEvening env now s

theorem checkAndPublish_success_gate (env : NewsEnv) (now t : Nat) (s : BotState)
    (hlast : s.lastPostTime = some t)
    (h : (checkAndPublishNewNews env now s).1 = true) :
    NEWS_GATE_SECONDS ≤ now - t ∧
      (checkAndPublishNewNews env now s).2.1.lastPostTime = some now := by
  unfold checkAndPublishNewNews at *
  rw [hlast] at h ⊢
  simp only at h ⊢
  split at h
  · exact absurd h (by simp)
  · next hge =>
    rw [Nat.not_lt] at hge
    refine ⟨hge, ?_⟩
    split
    · next hlt2 => exact absurd hlt2 (by omega)
    · exact core_success_lastPostTime env now s h


theorem publishPost_fst_quota_free (env : PublishEnv) (now : Nat) (c : Text)
    (p : Bool) (nid : Option Nat) (s : BotState) (k : Nat) :
    (publishPost env now c p nid { s with postsToday := k }).1 =
      (publishPost env now c p nid s).1 := by
  obtain ⟨iok, outc⟩ := env
  unfold publishPost
  have hdup : isDuplicate { s with postsToday := k } c = isDuplicate s c := rfl
  have hcon : newsIdConsumed nid ({ s with postsToday := k } : BotState).publishedNewsIds
      = newsIdConsumed nid s.publishedNewsIds := rfl
  rw [hdup, hcon]
  by_cases h1 : isDuplicate s c = true
  · simp [h1]
  · rw [Bool.not_eq_true] at h1
    simp only [h1, Bool.false_eq_true, if_false]
    by_cases h2 : newsIdConsumed nid s.publishedNewsIds = true
    · simp [h2]
    · rw [Bool.not_eq_true] at h2
      simp only [h2, Bool.false_eq_true, if_false]
      cases outc <;> rfl

theorem core_fst_quota_free (env : NewsEnv) (now : Nat) (s : BotState) (k : Nat) :
    (checkAndPublishCore env now { s with postsToday := k }).1 =
      (checkAndPublishCore env now s).1 := by
  unfold checkAndPublishCore
  have hids : ({ s with postsToday := k } : BotState).publishedNewsIds
      = s.publishedNewsIds := rfl
  rw [hids]
  split
  · rfl
  · split
    · rfl
    · split
      · rfl
      · split
        · exact publishPost_fst_quota_free _ _ _ _ _ _ _
        · rfl

theorem checkAndPublish_fst_quota_free (env : NewsEnv) (now : Nat) (s : BotState) (k : Nat) :
    (checkAndPublishNewNews env now { s with postsToday := k }).1 =
      (checkAndPublishNewNews env now s).1 := by
  obtain ⟨lt, pt, ptg, rt, lm, le, hs, ids⟩ := s
  cases lt with
  | none => exact core_fst_quota_free env now ⟨none, pt, ptg, rt, lm, le, hs, ids⟩ k
  | some t =>
    simp only [checkAndPublishNewNews]
    split
    · rfl
    · exact core_fst_quota_free env now ⟨some t, pt, ptg, rt, lm, le, hs, ids⟩ k

theorem core_all_consumed (env : NewsEnv) (now : Nat) (s : BotState)
    (h : ∀ it ∈ env.newsItems, memb it.id s.publishedNewsIds = true) :
    checkAndPublishCore env now s = (false, s, []) := by
  unfold checkAndPublishCore
  have hfil : env.newsItems.filter (fun it => !memb it.id s.publishedNewsIds) = [] := by
    rw [List.filter_eq_nil_iff]
    intro it hit
    simp [h it hit]
  rw [hfil]
  split
  · rfl
  · rfl

theorem core_duplicate_content (env : NewsEnv) (now : Nat) (s : BotState) (c : Text)
    (hgen : env.genContent = some c) (hdup : isDuplicate s c = true) :
    (checkAndPublishCore env now s).1 = false ∧
      (checkAndPublishCore env now s).2.1 = s ∧
      ∀ e ∈ (checkAndPublishCore env now s).2.2, e = ExtCall.generateText := by
  rcases core_spec env now s with ⟨nid, c2, hgen2, hrel, heq⟩ | hright
  · rw [hgen] at hgen2
    have hc : c2 = c := by injection hgen2.symm
    subst hc
    rw [publishPost_duplicate _ _ _ _ _ _ hdup] at heq
    rw [heq]
    refine ⟨rfl, rfl, ?_⟩
    intro e he
    simp at he
    exact he
  · exact hright


theorem shouldPostPriceMorning_false_today (msk : MskTime) (s : BotState)
    (h : s.lastPriceMorning = some msk.date) :
    shouldPostPriceMorning msk s = false := by
  unfold shouldPostPriceMorning
  split
  · simp [h]
  · rfl

theorem shouldPostPriceEvening_false_today (msk : MskTime) (s : BotState)
    (h : s.lastPriceEvening = some msk.date) :
    shouldPostPriceEvening msk s = false := by
  unfold shouldPostPriceEvening
  split
  · simp [h]
  · rfl

theorem priceMorning_state (env : PriceEnv) (now : Nat) (msk : MskTime) (s : BotState) :
    ((generateAndPublishPrice env now msk true s).1 = true ∧
     (generateAndPublishPrice env now msk true s).2.lastPriceMorning = some msk.date) ∨
    ((generateAndPublishPrice env now msk true s).1 = false ∧
     (generateAndPublishPrice env now msk true s).2.lastPriceMorning = s.lastPriceMorning) := by
  simp only [generateAndPublishPrice]
  split
  · right; exact ⟨rfl, rfl⟩
  · split
    · right; exact ⟨rfl, rfl⟩
    · split
      · left; exact ⟨rfl, rfl⟩
      · right
        exact ⟨rfl, publishPost_lastPriceMorning _ _ _ _ _ _⟩

theorem priceEvening_state (env : PriceEnv) (now : Nat) (msk : MskTime) (s : BotState) :
    ((generateAndPublishPrice env now msk false s).1 = true ∧
     (generateAndPublishPrice env now msk false s).2.lastPriceEvening = some msk.date) ∨
    ((generateAndPublishPrice env now msk false s).1 = false ∧
     (generateAndPublishPrice env now msk false s).2.lastPriceEvening = s.lastPriceEvening) := by
  simp only [generateAndPublishPrice]
  split
  · right; exact ⟨rfl, rfl⟩
  · split
    · right; exact ⟨rfl, rfl⟩
    · split
      · left; exact ⟨rfl, rfl⟩
      · right
        exact ⟨rfl, publishPost_lastPriceEvening _ _ _ _ _ _⟩

theorem priceEvening_preserves_morning (env : PriceEnv) (now : Nat) (msk : MskTime) (s : BotState) :
    (generateAndPublishPrice env now msk false s).2.lastPriceMorning = s.lastPriceMorning := by
  simp only [generateAndPublishPrice]
  split
  · rfl
  · split
    · rfl
    · split
      · exact publishPost_lastPriceMorning _ _ _ _ _ _
      · exact publishPost_lastPriceMorning _ _ _ _ _ _

theorem priceMorning_preserves_evening (env : PriceEnv) (now : Nat) (msk : MskTime) (s : BotState) :
    (generateAndPublishPrice env now msk true s).2.lastPriceEvening = s.lastPriceEvening := by
  simp only [generateAndPublishPrice]
  split
  · rfl
  · split
    · rfl
    · split
      · exact publishPost_lastPriceEvening _ _ _ _ _ _
      · exact publishPost_lastPriceEvening _ _ _ _ _ _


theorem runLoopTick_morning_blocked (tick : TickEnv) (s : BotState)
    (hs : s.lastPriceMorning = some tick.msk.date) :
    (runLoopTick tick s).1.1 = false ∧
      (runLoopTick tick s).2.lastPriceMorning = some tick.msk.date := by
  simp only [runLoopTick]
  have h1 : (checkAndPublishNewNews tick.newsEnv tick.now s).2.1.lastPriceMorning
      = some tick.msk.date := by
    rw [checkAndPublish_lastPriceMorning]; exact hs
  have h2 : shouldPostPriceMorning tick.msk
      (checkAndPublishNewNews tick.newsEnv tick.now s).2.1 = false :=
    shouldPostPriceMorning_false_today _ _ h1
  simp only [h2, Bool.false_eq_true, if_false]
  constructor
  · trivial
  · split
    · rw [priceEvening_preserves_morning]
      exact h1
    · exact h1

theorem runLoopTick_evening_blocked (tick : TickEnv) (s : BotState)
    (hs : s.lastPriceEvening = some tick.msk.date) :
    (runLoopTick tick s).1.2 = false ∧
      (runLoopTick tick s).2.lastPriceEvening = some tick.msk.date := by
  simp only [runLoopTick]
  have h1 : (checkAndPublishNewNews tick.newsEnv tick.now s).2.1.lastPriceEvening
      = some tick.msk.date := by
    rw [checkAndPublish_lastPriceEvening]; exact hs
  constructor
  · split
    · next hm =>
      have h1b : (generateAndPublishPrice tick.morningEnv tick.now tick.msk true
          (checkAndPublishNewNews tick.newsEnv tick.now s).2.1).2.lastPriceEvening
          = some tick.msk.date := by
        rw [priceMorning_preserves_evening]; exact h1
      have h2 := shouldPostPriceEvening_false_today tick.msk _ h1b
      simp only [h2, Bool.false_eq_true, if_false]
    · have h2 := shouldPostPriceEvening_false_today tick.msk _ h1
      simp only [h2, Bool.false_eq_true, if_false]
  · split
    · next hm =>
      have h1b : (generateAndPublishPrice tick.morningEnv tick.now tick.msk true
          (checkAndPublishNewNews tick.newsEnv tick.now s).2.1).2.lastPriceEvening
          = some tick.msk.date := by
        rw [priceMorning_preserves_evening]; exact h1
      have h2 := shouldPostPriceEvening_false_today tick.msk _ h1b
      simp only [h2, Bool.false_eq_true, if_false]
      exact h1b
    · have h2 := shouldPostPriceEvening_false_today tick.msk _ h1
      simp only [h2, Bool.false_eq_true, if_false]
      exact h1


theorem priceStage_morning (env : PriceEnv) (now : Nat) (msk : MskTime)
    (b : Bool) (s2 : BotState)
    (h : (if b = true then generateAndPublishPrice env now msk true s2
        else (false, s2)).1 = true) :
    (if b = true then generateAndPublishPrice env now msk true s2
      else (false, s2)).2.lastPriceMorning = some msk.date := by
  cases b with
  | false => simp at h
  | true =>
    simp only [eq_self_iff_true, if_true] at h ⊢
    rcases priceMorning_state env now msk s2 with ⟨_, hset⟩ | ⟨hfail, _⟩
    · exact hset
    · rw [hfail] at h
      exact absurd h (by simp)

theorem priceStage_evening (env : PriceEnv) (now : Nat) (msk : MskTime)
    (b : Bool) (s2 : BotState)
    (h : (if b = true then generateAndPublishPrice env now msk false s2
        else (false, s2)).1 = true) :
    (if b = true then generateAndPublishPrice env now msk false s2
      else (false, s2)).2.lastPriceEvening = some msk.date := by
  cases b with
  | false => simp at h
  | true =>
    simp only [eq_self_iff_true, if_true] at h ⊢
    rcases priceEvening_state env now msk s2 with ⟨_, hset⟩ | ⟨hfail, _⟩
    · exact hset
    · rw [hfail] at h
      exact absurd h (by simp)

theorem eveningStage_preserves_morning (env : PriceEnv) (now : Nat) (msk : MskTime)
    (b2 : Bool) (s2 : BotState) :
    (if b2 = true then generateAndPublishPrice env now msk false s2
      else (false, s2)).2.lastPriceMorning = s2.lastPriceMorning := by
  cases b2 with
  | false => simp
  | true => simp [priceEvening_preserves_morning]

theorem runLoopTick_morning_success (tick : TickEnv) (s : BotState)
    (h : (runLoopTick tick s).1.1 = true) :
    (runLoopTick tick s).2.lastPriceMorning = some tick.msk.date := by
  simp only [runLoopTick] at h ⊢
  rw [eveningStage_preserves_morning]
  exact priceStage_morning _ _ _ _ _ h

theorem runLoopTick_evening_success (tick : TickEnv) (s : BotState)
    (h : (runLoopTick tick s).1.2 = true) :
    (runLoopTick tick s).2.lastPriceEvening = some tick.msk.date := by
  simp only [runLoopTick] at h ⊢
  exact priceStage_evening _ _ _ _ _ h


theorem runLoop_morning_zero (ticks : List TickEnv) (d : Nat) :
    ∀ s : BotState, (∀ t ∈ ticks, t.msk.date = d) → s.lastPriceMorning = some d →
      (runLoop ticks s).1.1 = 0 := by
  induction ticks with
  | nil => intro s _ _; rfl
  | cons t ts ih =>
    intro s hd hs
    have hdt : t.msk.date = d := hd t (List.mem_cons_self t ts)
    have hblock := runLoopTick_morning_blocked t s (by rw [hdt]; exact hs)
    have hnext : (runLoopTick t s).2.lastPriceMorning = some d := by
      rw [hblock.2, hdt]
    simp only [runLoop, hblock.1, Bool.false_eq_true, if_false, Nat.add_zero]
    exact ih _ (fun x hx => hd x (List.mem_cons_of_mem t hx)) hnext

theorem runLoop_evening_zero (ticks : List TickEnv) (d : Nat) :
    ∀ s : BotState, (∀ t ∈ ticks, t.msk.date = d) → s.lastPriceEvening = some d →
      (runLoop ticks s).1.2 = 0 := by
  induction ticks with
  | nil => intro s _ _; rfl
  | cons t ts ih =>
    intro s hd hs
    have hdt : t.msk.date = d := hd t (List.mem_cons_self t ts)
    have hblock := runLoopTick_evening_blocked t s (by rw [hdt]; exact hs)
    have hnext : (runLoopTick t s).2.lastPriceEvening = some d := by
      rw [hblock.2, hdt]
    simp only [runLoop, hblock.1, Bool.false_eq_true, if_false, Nat.add_zero]
    exact ih _ (fun x hx => hd x (List.mem_cons_of_mem t hx)) hnext

theorem runLoop_morning_le_one (ticks : List TickEnv) (d : Nat) :
    ∀ s : BotState, (∀ t ∈ ticks, t.msk.date = d) → (runLoop ticks s).1.1 ≤ 1 := by
  induction ticks with
  | nil => intro s _; exact Nat.zero_le 1
  | cons t ts ih =>
    intro s hd
    have hdrest : ∀ x ∈ ts, x.msk.date = d := fun x hx => hd x (List.mem_cons_of_mem t hx)
    by_cases hm : (runLoopTick t s).1.1 = true
    · have hset := runLoopTick_morning_success t s hm
      have hzero := runLoop_morning_zero ts d (runLoopTick t s).2 hdrest
        (by rw [hset, hd t (List.mem_cons_self t ts)])
      simp only [runLoop, hm, if_true, hzero]
      exact Nat.le_refl 1
    · rw [Bool.not_eq_true] at hm
      simp only [runLoop, hm, Bool.false_eq_true, if_false, Nat.add_zero]
      exact ih _ hdrest

theorem runLoop_evening_le_one (ticks : List TickEnv) (d : Nat) :
    ∀ s : BotState, (∀ t ∈ ticks, t.msk.date = d) → (runLoop ticks s).1.2 ≤ 1 := by
  induction ticks with
  | nil => intro s _; exact Nat.zero_le 1
  | cons t ts ih =>
    intro s hd
    have hdrest : ∀ x ∈ ts, x.msk.date = d := fun x hx => hd x (List.mem_cons_of_mem t hx)
    by_cases hm : (runLoopTick t s).1.2 = true
    · have hset := runLoopTick_evening_success t s hm
      have hzero := runLoop_evening_zero ts d (runLoopTick t s).2 hdrest
        (by rw [hset, hd t (List.mem_cons_self t ts)])
      simp only [runLoop, hm, if_true, hzero]
      exact Nat.le_refl 1
    · rw [Bool.not_eq_true] at hm
      simp only [runLoop, hm, Bool.false_eq_true, if_false, Nat.add_zero]
      exact ih _ hdrest

theorem dailyReset_of_lt (now : Nat) (s : BotState) (h : now < s.resetTime + 86400) :
    dailyReset now s = s := by
  unfold dailyReset
  rw [if_neg (by omega)]

theorem dailyReset_lastPostTime (now : Nat) (s : BotState) :
    (dailyReset now s).lastPostTime = s.lastPostTime := by
  unfold dailyReset
  split <;> rfl

theorem shouldPublishNow_quota_gate (now : Nat) (s : BotState)
    (hreset : now < s.resetTime + 86400) (hquota : s.postsTarget ≤ s.postsToday) :
    (shouldPublishNow now s).1 = false := by
  simp only [shouldPublishNow]
  rw [dailyReset_of_lt now s hreset]
  rw [if_pos hquota]

theorem shouldPublishNow_interval_gate (now t : Nat) (s : BotState)
    (hlast : s.lastPostTime = some t) (hint : now - t < MIN_SECONDS_BETWEEN_POSTS) :
    (shouldPublishNow now s).1 = false := by
  simp only [shouldPublishNow]
  have hl2 : (dailyReset now s).lastPostTime = some t := by
    rw [dailyReset_lastPostTime]; exact hlast
  split
  · rfl
  · rw [hl2]
    show (if now - t < MIN_SECONDS_BETWEEN_POSTS then (false, dailyReset now s)
      else (true, dailyReset now s)).1 = false
    rw [if_pos hint]

theorem publishPostManual_fst (mo : ManualOutcome) (now : Nat) (c : Text) (s : BotState) :
    (publishPostManual mo now c s).1 = true ↔
      (isDuplicate s c = false ∧ mo = ManualOutcome.ok) := by
  unfold publishPostManual
  by_cases hd : isDuplicate s c = true
  · simp [hd]
  · rw [Bool.not_eq_true] at hd
    cases mo <;> simp [hd]

theorem publishPostManual_success_state (mo : ManualOutcome) (now : Nat) (c : Text)
    (s : BotState) (h : (publishPostManual mo now c s).1 = true) :
    (publishPostManual mo now c s).2.lastPostTime = some now ∧
      (publishPostManual mo now c s).2.postsToday = s.postsToday + 1 := by
  unfold publishPostManual at h ⊢
  split at h
  · exact absurd h (by simp)
  · split
    · simp_all
    · cases mo
      · exact ⟨by rw [markAsPublished_lastPostTime], by rw [markAsPublished_postsToday]⟩
      · exact absurd h (by simp)

theorem checkAndPublish_all_consumed (env : NewsEnv) (now : Nat) (s : BotState)
    (h : ∀ it ∈ env.newsItems, memb it.id s.publishedNewsIds = true) :
    checkAndPublishNewNews env now s = (false, s, []) := by
  unfold checkAndPublishNewNews
  cases s.lastPostTime with
  | none => exact core_all_consumed env now s h
  | some t =>
    show (if now - t < NEWS_GATE_SECONDS then (false, s, [])
      else checkAndPublishCore env now s) = (false, s, [])
    split
    · rfl
    · exact core_all_consumed env now s h

theorem checkAndPublish_duplicate_content (env : NewsEnv) (now : Nat) (s : BotState)
    (c : Text) (hgen : env.genContent = some c) (hdup : isDuplicate s c = true) :
    (checkAndPublishNewNews env now s).1 = false ∧
      (checkAndPublishNewNews env now s).2.1 = s ∧
      ∀ e ∈ (checkAndPublishNewNews env now s).2.2, e = ExtCall.generateText := by
  unfold checkAndPublishNewNews
  cases s.lastPostTime with
  | none => exact core_duplicate_content env now s c hgen hdup
  | some t =>
    show (if now - t < NEWS_GATE_SECONDS then ((false, s, []) : Bool × BotState × List ExtCall)
        else checkAndPublishCore env now s).1 = false ∧
      (if now - t < NEWS_GATE_SECONDS then ((false, s, []) : Bool × BotState × List ExtCall)
        else checkAndPublishCore env now s).2.1 = s ∧
      ∀ e ∈ (if now - t < NEWS_GATE_SECONDS then ((false, s, []) : Bool × BotState × List ExtCall)
        else checkAndPublishCore env now s).2.2, e = ExtCall.generateText
    split
    · exact ⟨rfl, rfl, by intro e he; simp at he⟩
    · exact core_duplicate_content env now s c hgen hdup

/-! # Claim theorems -/

theorem checkAndPublish_blocked (env : NewsEnv) (now t : Nat) (s : BotState)
    (hlast : s.lastPostTime = some t) (hlt : now - t < NEWS_GATE_SECONDS) :
    checkAndPublishNewNews env now s = (false, s, []) := by
  unfold checkAndPublishNewNews
  rw [hlast]
  simp [hlt]

/-- C1: the claim says every successful publish derived from news item
`i` — including a success reached through the text-only fallback after an
error — records `i` in `published_news_ids` and later attempts
referencing `i` are rejected.  The code violates this in the
generic-exception fallback of `publish_post` (bot.py:1449-1465), which
calls `_mark_as_published(content)` without `news_id`: the publish
succeeds, id 7 is not recorded, and a second publish of different
content referencing id 7 succeeds as well. -/
theorem C1_fallback_drops_news_id :
    ((publishPost { imageOk := false, outcome := SendOutcome.otherErrThenOk } 1000
        (txt "btc памп") false (some 7) emptyState).1 = true) ∧
    (memb 7 (publishPost { imageOk := false, outcome := SendOutcome.otherErrThenOk } 1000
        (txt "btc памп") false (some 7) emptyState).2.1.publishedNewsIds = false) ∧
    ((publishPost okPublishEnv 2000 (txt "btc снова растет") false (some 7)
        (publishPost { imageOk := false, outcome := SendOutcome.otherErrThenOk } 1000
          (txt "btc памп") false (some 7) emptyState).2.1).1 = true) := by
  decide

/-- C2 counterexample: with `last_post_time = 0`, a tick of
`check_and_publish_new_news` at 1795 s — less than the 1800-second
minimum interval — publishes successfully, because the code's gate uses
`min_interval_minutes - 0.1` (1794 s). -/
theorem C2_counterexample :
    (1795 : Nat) < MIN_SECONDS_BETWEEN_POSTS ∧
    stateLastZero.lastPostTime = some 0 ∧
    (checkAndPublishNewNews newsEnvBtc 1795 stateLastZero).1 = true ∧
    (checkAndPublishNewNews newsEnvBtc 1795 stateLastZero).2.1.lastPostTime = some 1795 := by
  decide

/-- C2 (amended): the automatic cycle path rejects a tick whenever the
elapsed time since `last_post_time` is below `NEWS_GATE_SECONDS`
(= 30 min − 0.1 min = 1794 s), as a state-unchanged no-op, and any
successful tick happens at least 1794 s after `last_post_time` and sets
`last_post_time` to the current time — so two cycle publishes are never
less than 1794 s apart, though they can be up to 6 s closer than the
nominal 30-minute minimum. -/
theorem C2_amended_interval_gate :
    (∀ (env : NewsEnv) (now t : Nat) (s : BotState), s.lastPostTime = some t →
        now - t < NEWS_GATE_SECONDS →
        checkAndPublishNewNews env now s = (false, s, [])) ∧
    (∀ (env : NewsEnv) (now t : Nat) (s : BotState), s.lastPostTime = some t →
        (checkAndPublishNewNews env now s).1 = true →
        NEWS_GATE_SECONDS ≤ now - t ∧
          (checkAndPublishNewNews env now s).2.1.lastPostTime = some now) :=
  ⟨fun env now t s h1 h2 => checkAndPublish_blocked env now t s h1 h2,
   fun env now t s h1 h2 => checkAndPublish_success_gate env now t s h1 h2⟩

/-- Witness for C2 (amended) at concrete inputs: a tick at 1700 s is a
no-op, a tick at 1800 s publishes and records the time. -/
theorem C2_amended_interval_gate_witness :
    stateLastZero.lastPostTime = some 0 ∧
    (1700 : Nat) - 0 < NEWS_GATE_SECONDS ∧
    checkAndPublishNewNews newsEnvBtc 1700 stateLastZero = (false, stateLastZero, []) ∧
    (checkAndPublishNewNews newsEnvBtc 1800 stateLastZero).1 = true ∧
    NEWS_GATE_SECONDS ≤ 1800 - 0 ∧
    (checkAndPublishNewNews newsEnvBtc 1800 stateLastZero).2.1.lastPostTime = some 1800 :=
  ⟨rfl, by decide,
   C2_amended_interval_gate.1 newsEnvBtc 1700 0 stateLastZero rfl (by decide),
   by decide,
   (C2_amended_interval_gate.2 newsEnvBtc 1800 0 stateLastZero rfl (by decide)).1,
   (C2_amended_interval_gate.2 newsEnvBtc 1800 0 stateLastZero rfl (by decide)).2⟩

/-- C3 counterexample: after a successful publish on `statePrePublish`,
the snapshot round-trip (`_save_state` then restart `_load_state` +
`__init__`) loses `posts_today` and both price-post dates: they are
defaulted, not restored. -/
theorem C3_counterexample :
    (publishPost okPublishEnv 5000 (txt "btc пост") false (some 3) statePrePublish).1 = true ∧
    stateAfterPublish.postsToday = 5 ∧
    (initFromState 86400 (some (saveState stateAfterPublish))).postsToday = 0 ∧
    stateAfterPublish.lastPriceMorning = some 20000 ∧
    (initFromState 86400 (some (saveState stateAfterPublish))).lastPriceMorning = none ∧
    stateAfterPublish.lastPriceEvening = some 20000 ∧
    (initFromState 86400 (some (saveState stateAfterPublish))).lastPriceEvening = none := by
  decide

/-- C3 (amended): the durable snapshot holds exactly `last_post_time`,
the published content hashes and the published source ids, and a restart
restores those three; `posts_today` and the morning/evening price-post
dates are not persisted and reset to their defaults (0 / none). -/
theorem C3_amended_snapshot_roundtrip (s : BotState) (startupNow : Nat) :
    (initFromState startupNow (some (saveState s))).lastPostTime = s.lastPostTime ∧
    (initFromState startupNow (some (saveState s))).publishedHashes = s.publishedHashes ∧
    (initFromState startupNow (some (saveState s))).publishedNewsIds = s.publishedNewsIds ∧
    (initFromState startupNow (some (saveState s))).postsToday = 0 ∧
    (initFromState startupNow (some (saveState s))).lastPriceMorning = none ∧
    (initFromState startupNow (some (saveState s))).lastPriceEvening = none :=
  ⟨rfl, rfl, rfl, rfl, rfl, rfl⟩

/-- C4 counterexample: with the generated content's hash already
published, `check_and_publish_new_news` still calls the Content
Generator (the `generateText` call in the trace) before the
duplicate-hash check can run — the hash is only checked inside
`publish_post`, after generation. -/
theorem C4_counterexample :
    isDuplicate stateHashPrimed (txt "btc растет") = true ∧
    newsEnvBtc.genContent = some (txt "btc растет") ∧
    checkAndPublishNewNews newsEnvBtc 100 stateHashPrimed =
      (false, stateHashPrimed, [ExtCall.generateText]) := by
  decide

/-- C4 (amended): the consumed-source-id check runs before any external
call — an attempt whose news items are all consumed is a no-op with no
calls and no state change; the duplicate-hash check runs only after
content generation but before the image generator and the Channel
Publisher, so a duplicate-hash attempt costs exactly one Content
Generator call, makes no publisher call, and changes no state. -/
theorem C4_amended_guard_order (env : NewsEnv) (now : Nat) (s : BotState) :
    ((∀ it ∈ env.newsItems, memb it.id s.publishedNewsIds = true) →
        checkAndPublishNewNews env now s = (false, s, [])) ∧
    (∀ c, env.genContent = some c → isDuplicate s c = true →
        (checkAndPublishNewNews env now s).1 = false ∧
        (checkAndPublishNewNews env now s).2.1 = s ∧
        ∀ e ∈ (checkAndPublishNewNews env now s).2.2, e = ExtCall.generateText) :=
  ⟨fun h => checkAndPublish_all_consumed env now s h,
   fun c hgen hdup => checkAndPublish_duplicate_content env now s c hgen hdup⟩

/-- Witness for C4 (amended) at concrete inputs. -/
theorem C4_amended_guard_order_witness :
    (∀ it ∈ newsEnvConsumed.newsItems, memb it.id stateConsumed5.publishedNewsIds = true) ∧
    checkAndPublishNewNews newsEnvConsumed 50 stateConsumed5 = (false, stateConsumed5, []) ∧
    newsEnvBtc.genContent = some (txt "btc растет") ∧
    isDuplicate stateHashPrimed (txt "btc растет") = true ∧
    (checkAndPublishNewNews newsEnvBtc 60 stateHashPrimed).1 = false ∧
    (checkAndPublishNewNews newsEnvBtc 60 stateHashPrimed).2.1 = stateHashPrimed ∧
    (∀ e ∈ (checkAndPublishNewNews newsEnvBtc 60 stateHashPrimed).2.2,
        e = ExtCall.generateText) :=
  ⟨by decide,
   (C4_amended_guard_order newsEnvConsumed 50 stateConsumed5).1 (by decide),
   rfl,
   by decide,
   ((C4_amended_guard_order newsEnvBtc 60 stateHashPrimed).2 (txt "btc растет") rfl (by decide)).1,
   ((C4_amended_guard_order newsEnvBtc 60 stateHashPrimed).2 (txt "btc растет") rfl (by decide)).2.1,
   ((C4_amended_guard_order newsEnvBtc 60 stateHashPrimed).2 (txt "btc растет") rfl (by decide)).2.2⟩

/-- C5: if `t2` differs from `t` only by letter case and/or whitespace,
then after `_mark_as_published(t)` a later `_is_duplicate(t2)` returns
true — the content hash is invariant under trim, lowercasing and
whitespace collapsing. -/
theorem C5_duplicate_under_case_ws (t t2 : Text) (s : BotState)
    (h : caseWsEquiv t t2) :
    isDuplicate (markAsPublished s t none) t2 = true := by
  have hh : getPostHash t2 = getPostHash t := (getPostHash_congr t t2 h).symm
  simp [isDuplicate, markAsPublished, memb, hh]

/-- Witness for C5 at a concrete pair differing in case and
whitespace. -/
theorem C5_duplicate_under_case_ws_witness :
    caseWsEquiv (txt "  BTC   Растет ") (txt "btc растет") ∧
    isDuplicate (markAsPublished emptyState (txt "  BTC   Растет ") none)
      (txt "btc растет") = true :=
  ⟨by decide,
   C5_duplicate_under_case_ws (txt "  BTC   Растет ") (txt "btc растет") emptyState (by decide)⟩


/-- C6 counterexample: with the daily quota exhausted
(`posts_today = posts_target = 999`), `should_publish_now` refuses, but
the scheduler-loop path `check_and_publish_new_news` still publishes —
the quota does not gate every automatic cycle publish path. -/
theorem C6_counterexample :
    stateQuotaFull.postsTarget ≤ stateQuotaFull.postsToday ∧
    (shouldPublishNow 100 stateQuotaFull).1 = false ∧
    (checkAndPublishNewNews newsEnvBtc 100 stateQuotaFull).1 = true := by
  decide

/-- C6 (amended): both conditions gate `should_publish_now` (used by
`generate_and_publish`): an exhausted quota or a too-small interval each
force "not eligible"; but the scheduler-loop path
`check_and_publish_new_news` checks only the interval — its decision is
independent of `posts_today`. -/
theorem C6_amended_gating :
    (∀ (now : Nat) (s : BotState), now < s.resetTime + 86400 →
        s.postsTarget ≤ s.postsToday → (shouldPublishNow now s).1 = false) ∧
    (∀ (now t : Nat) (s : BotState), s.lastPostTime = some t →
        now - t < MIN_SECONDS_BETWEEN_POSTS → (shouldPublishNow now s).1 = false) ∧
    (∀ (env : NewsEnv) (now : Nat) (s : BotState) (k : Nat),
        (checkAndPublishNewNews env now { s with postsToday := k }).1 =
          (checkAndPublishNewNews env now s).1) :=
  ⟨fun now s hr hq => shouldPublishNow_quota_gate now s hr hq,
   fun now t s hl hi => shouldPublishNow_interval_gate now t s hl hi,
   fun env now s k => checkAndPublish_fst_quota_free env now s k⟩

/-- Witness for C6 (amended) at concrete inputs. -/
theorem C6_amended_gating_witness :
    (100 : Nat) < stateQuotaFull.resetTime + 86400 ∧
    stateQuotaFull.postsTarget ≤ stateQuotaFull.postsToday ∧
    (shouldPublishNow 100 stateQuotaFull).1 = false ∧
    stateLastZero.lastPostTime = some 0 ∧
    (300 : Nat) - 0 < MIN_SECONDS_BETWEEN_POSTS ∧
    (shouldPublishNow 300 stateLastZero).1 = false ∧
    (checkAndPublishNewNews newsEnvBtc 100 { stateQuotaFull with postsToday := 0 }).1 =
      (checkAndPublishNewNews newsEnvBtc 100 stateQuotaFull).1 :=
  ⟨by decide, by decide,
   C6_amended_gating.1 100 stateQuotaFull (by decide) (by decide),
   rfl, by decide,
   C6_amended_gating.2.1 300 0 stateLastZero rfl (by decide),
   C6_amended_gating.2.2 newsEnvBtc 100 stateQuotaFull 0⟩

/-- C7: over any sequence of `run_loop` iterations whose MSK clock stays
on one calendar day `d`, the morning price track publishes at most once
and the evening price track publishes at most once; moreover once a
track's last-posted date equals today's MSK date, that track's
eligibility check returns false. -/
theorem C7_price_tracks_once_per_day (ticks : List TickEnv) (d : Nat) (s : BotState)
    (hd : ∀ t ∈ ticks, t.msk.date = d) :
    (runLoop ticks s).1.1 ≤ 1 ∧
    (runLoop ticks s).1.2 ≤ 1 ∧
    (∀ (msk : MskTime) (s2 : BotState), s2.lastPriceMorning = some msk.date →
        shouldPostPriceMorning msk s2 = false) ∧
    (∀ (msk : MskTime) (s2 : BotState), s2.lastPriceEvening = some msk.date →
        shouldPostPriceEvening msk s2 = false) :=
  ⟨runLoop_morning_le_one ticks d s hd,
   runLoop_evening_le_one ticks d s hd,
   fun msk s2 h => shouldPostPriceMorning_false_today msk s2 h,
   fun msk s2 h => shouldPostPriceEvening_false_today msk s2 h⟩

/-- Witness for C7: two ticks inside the same 11:00 MSK window of day 0;
the first publishes the morning price post, the second is blocked, so
the morning count is exactly 1. -/
theorem C7_price_tracks_once_per_day_witness :
    (∀ t ∈ [tick1, tick2], t.msk.date = 0) ∧
    (runLoop [tick1, tick2] emptyState).1.1 = 1 ∧
    (runLoop [tick1, tick2] emptyState).1.1 ≤ 1 ∧
    (runLoop [tick1, tick2] emptyState).1.2 ≤ 1 :=
  ⟨by decide, by decide,
   (C7_price_tracks_once_per_day [tick1, tick2] 0 emptyState (by decide)).1,
   (C7_price_tracks_once_per_day [tick1, tick2] 0 emptyState (by decide)).2.1⟩

/-- C8: any text containing a hard-exclusion (Ukraine/Zelensky) term is
rejected by `is_relevant_news` unconditionally — even when strict crypto
keywords are also present — and the empty text is rejected too. -/
theorem C8_hard_exclusion (t : Text)
    (h : ukraineKeywords.any (fun k => containsSub (t.map pyToLower) k) = true) :
    isRelevantNews t = false ∧ isRelevantNews (txt "") = false := by
  constructor
  · simp [isRelevantNews, h]
  · rfl

/-- Witness for C8: a text naming Ukraine together with the strict
keywords "bitcoin" and "btc" is still rejected. -/
theorem C8_hard_exclusion_witness :
    ukraineKeywords.any
      (fun k => containsSub ((txt "Украина запретила Bitcoin и BTC").map pyToLower) k) = true ∧
    isRelevantNews (txt "Украина запретила Bitcoin и BTC") = false ∧
    isRelevantNews (txt "") = false :=
  ⟨by decide,
   (C8_hard_exclusion (txt "Украина запретила Bitcoin и BTC") (by decide)).1,
   (C8_hard_exclusion (txt "Украина запретила Bitcoin и BTC") (by decide)).2⟩


/-- C9: every successful `publish_post` increments `posts_today` by one —
price posts included — while `last_post_time` is updated only for
non-price posts; and an exhausted `posts_today ≥ posts_target` quota
(with no pending day reset) makes `should_publish_now` refuse, so price
posts do count against the quota gating cycle eligibility while leaving
the cycle spacing timer unchanged. -/
theorem C9_quota_and_timer_effects (env : PublishEnv) (now : Nat) (c : Text)
    (isPrice : Bool) (nid : Option Nat) (s : BotState)
    (h : (publishPost env now c isPrice nid s).1 = true) :
    (publishPost env now c isPrice nid s).2.1.postsToday = s.postsToday + 1 ∧
    (isPrice = true →
      (publishPost env now c isPrice nid s).2.1.lastPostTime = s.lastPostTime) ∧
    (isPrice = false →
      (publishPost env now c isPrice nid s).2.1.lastPostTime = some now) ∧
    (∀ (now2 : Nat) (s2 : BotState), now2 < s2.resetTime + 86400 →
        s2.postsTarget ≤ s2.postsToday → (shouldPublishNow now2 s2).1 = false) := by
  refine ⟨publishPost_success_postsToday env now c isPrice nid s h, ?_, ?_,
    fun now2 s2 hr hq => shouldPublishNow_quota_gate now2 s2 hr hq⟩
  · intro hp
    subst hp
    have hlt := publishPost_success_lastPostTime env now c true nid s h
    simpa using hlt
  · intro hp
    subst hp
    have hlt := publishPost_success_lastPostTime env now c false nid s h
    simpa using hlt

/-- Witness for C9: a successful price post on `stateLastZero` bumps the
quota counter and leaves the cycle timer untouched. -/
theorem C9_quota_and_timer_effects_witness :
    (publishPost okPublishEnv 500 (txt "тон по 2 бакса") true none stateLastZero).1 = true ∧
    (publishPost okPublishEnv 500 (txt "тон по 2 бакса") true none stateLastZero).2.1.postsToday
      = stateLastZero.postsToday + 1 ∧
    (publishPost okPublishEnv 500 (txt "тон по 2 бакса") true none stateLastZero).2.1.lastPostTime
      = stateLastZero.lastPostTime :=
  ⟨by decide,
   (C9_quota_and_timer_effects okPublishEnv 500 (txt "тон по 2 бакса") true none
      stateLastZero (by decide)).1,
   (C9_quota_and_timer_effects okPublishEnv 500 (txt "тон по 2 бакса") true none
      stateLastZero (by decide)).2.1 rfl⟩

/-- C10 counterexample: after a successful manual publish at time 0, an
automatic `check_and_publish_new_news` tick at 1795 s — less than the
full 1800-second minimum interval — still publishes, because the
automatic gate uses the 1794-second threshold; so a manual publish
postpones the next automatic publish by slightly less than the full
minimum interval. -/
theorem C10_counterexample :
    (publishPostManual ManualOutcome.ok 0 (txt "первый пост") emptyState).1 = true ∧
    (checkAndPublishNewNews newsEnvBtc 1795
        (publishPostManual ManualOutcome.ok 0 (txt "первый пост") emptyState).2).1 = true ∧
    (1795 : Nat) < MIN_SECONDS_BETWEEN_POSTS := by
  decide

/-- C10 (amended): `publish_post_manual` checks only the content-hash
guard — it succeeds exactly when the content is not a duplicate and the
send succeeds, independently of source ids, interval and quota; on
success it sets `last_post_time` to now and increments `posts_today`;
consequently a successful manual publish blocks the automatic cycle path
for the next `NEWS_GATE_SECONDS` (1794 s = the 30-minute minimum minus
the 6-second tolerance), not the full 1800 s. -/
theorem C10_amended_manual_publish (mo : ManualOutcome) (now : Nat) (c : Text)
    (s : BotState) :
    ((publishPostManual mo now c s).1 = true ↔
      (isDuplicate s c = false ∧ mo = ManualOutcome.ok)) ∧
    ((publishPostManual mo now c s).1 = true →
      (publishPostManual mo now c s).2.lastPostTime = some now ∧
      (publishPostManual mo now c s).2.postsToday = s.postsToday + 1) ∧
    (∀ (env2 : NewsEnv) (now2 : Nat), (publishPostManual mo now c s).1 = true →
      now2 - now < NEWS_GATE_SECONDS →
      checkAndPublishNewNews env2 now2 (publishPostManual mo now c s).2 =
        (false, (publishPostManual mo now c s).2, [])) := by
  refine ⟨publishPostManual_fst mo now c s, ?_, ?_⟩
  · intro h
    exact publishPostManual_success_state mo now c s h
  · intro env2 now2 h h2
    exact checkAndPublish_blocked env2 now2 now _
      (publishPostManual_success_state mo now c s h).1 h2

/-- Witness for C10 (amended) at concrete inputs: a manual publish at
time 0 succeeds, records the timer and the quota, and an automatic tick
at 1793 s is a state-unchanged no-op. -/
theorem C10_amended_manual_publish_witness :
    isDuplicate emptyState (txt "первый пост") = false ∧
    (publishPostManual ManualOutcome.ok 0 (txt "первый пост") emptyState).1 = true ∧
    (publishPostManual ManualOutcome.ok 0 (txt "первый пост") emptyState).2.lastPostTime
      = some 0 ∧
    (publishPostManual ManualOutcome.ok 0 (txt "первый пост") emptyState).2.postsToday
      = emptyState.postsToday + 1 ∧
    (1793 : Nat) - 0 < NEWS_GATE_SECONDS ∧
    checkAndPublishNewNews newsEnvBtc 1793
        (publishPostManual ManualOutcome.ok 0 (txt "первый пост") emptyState).2 =
      (false, (publishPostManual ManualOutcome.ok 0 (txt "первый пост") emptyState).2, []) :=
  ⟨by decide,
   (C10_amended_manual_publish ManualOutcome.ok 0 (txt "первый пост") emptyState).1.mpr
     ⟨by decide, rfl⟩,
   ((C10_amended_manual_publish ManualOutcome.ok 0 (txt "первый пост") emptyState).2.1
     (by decide)).1,
   ((C10_amended_manual_publish ManualOutcome.ok 0 (txt "первый пост") emptyState).2.1
     (by decide)).2,
   by decide,
   (C10_amended_manual_publish ManualOutcome.ok 0 (txt "первый пост") emptyState).2.2
     newsEnvBtc 1793 (by decide) (by decide)⟩

end NeyroBot
